import Mathlib

/-!
Shallow embedding of the insider-trade-tracker service: the server
(`isUsEquity`, `fetchInsiderTradingData`, the three HTTP endpoints) and the
browser script `public/app.js` (`displayData`, `showModal`, the row click
handler and `analyzeFinancialData`).  Numbers held in JavaScript variables are
modelled as exact rationals extended with the two infinities and NaN, which is
enough to follow every arithmetic step these functions perform.
-/

namespace InsiderTracker

/-- A JavaScript number as these functions can produce it: an exact rational,
one of the two infinities, or NaN. -/
inductive JsNum where
  | fin : ℚ → JsNum
  | posInf : JsNum
  | negInf : JsNum
  | nan : JsNum
deriving DecidableEq, Repr

/-- JavaScript division `a / b` of two finite numbers: `0 / 0` is NaN and
`a / 0` for nonzero `a` is a signed infinity. -/
def jsDiv (a b : ℚ) : JsNum :=
  if b = 0 then
    if a = 0 then .nan else if 0 < a then .posInf else .negInf
  else .fin (a / b)

/-- JavaScript multiplication `x * 100` of a possibly non-finite number:
infinities and NaN absorb the positive factor. -/
def jsMul100 : JsNum → JsNum
  | .fin q => .fin (q * 100)
  | x => x

/-- The JavaScript fallback `x || 0`: the falsy numbers (NaN and 0) are
replaced by 0, everything else is kept. -/
def jsOrZero : JsNum → JsNum
  | .nan => .fin 0
  | x => x

/-- JavaScript `x < c` for a finite constant `c`; a comparison with NaN is
false. -/
def jsLtB (x : JsNum) (c : ℚ) : Bool :=
  match x with
  | .fin q => decide (q < c)
  | .posInf => false
  | .negInf => true
  | .nan => false

/-- JavaScript `x > c` for a finite constant `c`; a comparison with NaN is
false. -/
def jsGtB (x : JsNum) (c : ℚ) : Bool :=
  match x with
  | .fin q => decide (c < q)
  | .posInf => true
  | .negInf => false
  | .nan => false

/-- The seven figures `analyzeFinancialData` reads from a Polygon financials
object; `none` models a field the optional chaining finds absent. -/
structure Financials where
  revenues : Option ℚ
  netIncome : Option ℚ
  totalAssets : Option ℚ
  currentAssets : Option ℚ
  currentLiabilities : Option ℚ
  liabilities : Option ℚ
  equity : Option ℚ
deriving DecidableEq, Repr

/-- The argument of `analyzeFinancialData`: an object whose `financials`
property may be absent. -/
structure FinancialData where
  financials : Option Financials
deriving DecidableEq, Repr

/-- JavaScript `v || 0` on a possibly-absent numeric field: an absent value
gives the default 0; a present 0 is falsy and also gives 0. -/
def fieldOr0 : Option ℚ → ℚ
  | none => 0
  | some v => v

/-- JavaScript `v || 1` on a possibly-absent numeric field: an absent value
gives the default 1, and a present 0 is falsy, so it too gives 1. -/
def fieldOr1 : Option ℚ → ℚ
  | none => 1
  | some v => if v = 0 then 1 else v

/-- The `details` object of the analysis result: the six computed ratios. -/
structure AnalysisDetails where
  netProfitMargin : JsNum
  returnOnAssets : JsNum
  returnOnEquity : JsNum
  currentRatio : JsNum
  debtToEquity : JsNum
  assetTurnover : JsNum
deriving DecidableEq, Repr

/-- app.js lines 441-457: extract the seven figures (with the `|| 0` / `|| 1`
fallbacks) and compute the six ratios, each guarded by `|| 0`. -/
def computeDetails (f : Financials) : AnalysisDetails :=
  let revenues := fieldOr0 f.revenues
  let netIncome := fieldOr0 f.netIncome
  let totalAssets := fieldOr0 f.totalAssets
  let currentAssets := fieldOr0 f.currentAssets
  let currentLiabilities := fieldOr1 f.currentLiabilities
  let totalLiabilities := fieldOr0 f.liabilities
  let equity := fieldOr1 f.equity
  { netProfitMargin := jsOrZero (jsMul100 (jsDiv netIncome revenues))
    returnOnAssets := jsOrZero (jsMul100 (jsDiv netIncome totalAssets))
    returnOnEquity := jsOrZero (jsMul100 (jsDiv netIncome equity))
    currentRatio := jsOrZero (jsDiv currentAssets currentLiabilities)
    debtToEquity := jsOrZero (jsDiv totalLiabilities equity)
    assetTurnover := jsOrZero (jsDiv revenues totalAssets) }

/-- app.js lines 469-485: the BUY / SELL / HOLD decision over the computed
ratios, BUY checked first. -/
def recommend (d : AnalysisDetails) : String :=
  if jsGtB d.netProfitMargin 10 && jsGtB d.returnOnAssets 5 &&
      jsGtB d.returnOnEquity 10 && jsGtB d.currentRatio (3 / 2) &&
      jsLtB d.debtToEquity 2 then
    "BUY"
  else if jsLtB d.netProfitMargin 0 || jsLtB d.returnOnAssets 1 ||
      jsLtB d.currentRatio 1 then
    "SELL"
  else
    "HOLD"

/-- The value `analyzeFinancialData` returns: a recommendation tag and a
details object; `none` details model the empty object `{}`. -/
structure AnalysisResult where
  recommendation : String
  details : Option AnalysisDetails
deriving DecidableEq, Repr

/-- app.js lines 432-499: `analyzeFinancialData`.  Absent `financials`
short-circuit to `{recommendation: "HOLD", details: {}}`; otherwise the six
ratios are computed and the recommendation decided from them. -/
def analyzeFinancialData (fd : FinancialData) : AnalysisResult :=
  match fd.financials with
  | none => { recommendation := "HOLD", details := none }
  | some f =>
      let d := computeDetails f
      { recommendation := recommend d, details := some d }

-- Sanity examples from the spec, removed later or kept as plain examples.
example :
    analyzeFinancialData
      { financials := some
          ({ revenues := some 1000, netIncome := some 150, totalAssets := some 2000
             currentAssets := some 500, currentLiabilities := some 200
             liabilities := some 300, equity := some 1000 }) } =
      { recommendation := "BUY"
        details := some
          { netProfitMargin := .fin 15, returnOnAssets := .fin (15 / 2)
            returnOnEquity := .fin 15, currentRatio := .fin (5 / 2)
            debtToEquity := .fin (3 / 10), assetTurnover := .fin (1 / 2) } } := by
  norm_num [analyzeFinancialData, computeDetails, recommend, jsDiv, jsMul100,
    jsOrZero, jsGtB, jsLtB, fieldOr0, fieldOr1]

example :
    (analyzeFinancialData
      { financials := some
          ({ revenues := some 1000, netIncome := some (-50), totalAssets := some 2000
             currentAssets := some 500, currentLiabilities := some 200
             liabilities := some 300, equity := some 1000 }) }).recommendation =
      "SELL" := by
  norm_num [analyzeFinancialData, computeDetails, recommend, jsDiv, jsMul100,
    jsOrZero, jsGtB, jsLtB, fieldOr0, fieldOr1]

/-! ### Spec-side ratio formulas (for the refinement claim C2)

These definitions follow the specification's words: each ratio is the stated
quotient, "any division whose result is NaN is coerced to 0" applied to the
division itself, and the percentage ratios are then scaled by 100. -/

/-- The spec's division-by-zero policy applied to one division: a NaN result
is coerced to 0, any other result is kept. -/
def nanToZero : JsNum → JsNum
  | .nan => .fin 0
  | x => x

/-- Spec formula for a plain ratio: `num / den`, NaN coerced to 0. -/
def specRatio (num den : ℚ) : JsNum :=
  nanToZero (jsDiv num den)

/-- Spec formula for a percentage ratio: `num / den × 100`, the NaN division
coerced to 0. -/
def specPercent (num den : ℚ) : JsNum :=
  jsMul100 (nanToZero (jsDiv num den))

/-- The six ratios exactly as the specification's formulas state them, taken
over the already-extracted figures. -/
def specDetails (revenues netIncome totalAssets currentAssets
    currentLiabilities totalLiabilities equity : ℚ) : AnalysisDetails :=
  { netProfitMargin := specPercent netIncome revenues
    returnOnAssets := specPercent netIncome totalAssets
    returnOnEquity := specPercent netIncome equity
    currentRatio := specRatio currentAssets currentLiabilities
    debtToEquity := specRatio totalLiabilities equity
    assetTurnover := specRatio revenues totalAssets }

/-! ### The transaction table (`displayData`, app.js lines 54-119) -/

/-- One element of the insider-trades feed as app.js reads it; an absent
property is `none`.  Prices and share counts are modelled as exact
rationals. -/
structure Trade where
  symbol : Option String
  name : Option String
  transactionCode : Option String
  change : Option ℚ
  transactionPrice : Option ℚ
  transactionDate : Option String
deriving DecidableEq, Repr

/-- JavaScript `s || d` on a possibly-absent string field: an absent value or
the falsy empty string gives the default. -/
def strOr (s : Option String) (d : String) : String :=
  match s with
  | some c => if c = "" then d else c
  | none => d

/-- app.js line 71: `trade.transactionCode || "N/A"`. -/
def transactionType (t : Trade) : String :=
  strOr t.transactionCode "N/A"

/-- app.js line 72: `trade.change || 0` (a present 0 is falsy and stays 0). -/
def rowShares (t : Trade) : ℚ :=
  match t.change with
  | some c => c
  | none => 0

/-- app.js lines 73-75: `trade.transactionPrice ? parseFloat(...) : null`.
A falsy price (absent or 0) becomes null, modelled as `none`. -/
def rowPrice (t : Trade) : Option ℚ :=
  match t.transactionPrice with
  | some p => if p = 0 then none else some p
  | none => none

/-- app.js line 77: `price && shares ? price * shares : 0` — the signed
product, 0 when either factor is falsy. -/
def tradeValue (t : Trade) : ℚ :=
  match rowPrice t with
  | some p => if rowShares t = 0 then 0 else p * rowShares t
  | none => 0

/-- What a table cell shows: plain text or a currency-formatted amount. -/
inductive Cell where
  | text : String → Cell
  | currency : ℚ → Cell
deriving DecidableEq, Repr

/-- app.js line 98: the trade-value cell, `tradeValue ? currency : "N/A"`
(a zero value is falsy and shows as "N/A"). -/
def tradeValueCell (t : Trade) : Cell :=
  if tradeValue t = 0 then .text "N/A" else .currency (tradeValue t)

/-- JavaScript `price <= 2` where `price` may be null: a relational comparison
coerces null to 0, so a null price passes the test. -/
def jsLeNullable (p : Option ℚ) (c : ℚ) : Bool :=
  match p with
  | some q => decide (q ≤ c)
  | none => decide ((0 : ℚ) ≤ c)

/-- app.js lines 79-89: the row's highlight class — bold green for a purchase
at `price <= 2` (null price included, by the null-to-0 coercion), plain green
for any other purchase, no class otherwise. -/
def rowClass (t : Trade) : Option String :=
  if transactionType t = "P" then
    if jsLeNullable (rowPrice t) 2 then some "highlight-green-bold"
    else some "highlight-green"
  else none

/-! ### The server: symbol filter, refresh and store (server file lines
13-68) -/

/-- The server's `isUsEquity`: the regex test `/^[A-Z]+$/.test(symbol)`,
true exactly for a non-empty string of uppercase ASCII letters. -/
def isUsEquity (symbol : String) : Bool :=
  decide (symbol ≠ "") &&
    symbol.data.all fun c => decide ('A' ≤ c) && decide (c ≤ 'Z')

/-- The regex test applied to a trade's possibly-absent `symbol` property: an
absent value is coerced to the string "undefined", which fails the
uppercase-only pattern. -/
def tradeSymbolIsUs (t : Trade) : Bool :=
  match t.symbol with
  | some s => isUsEquity s
  | none => false

/-- One provider poll as `fetchInsiderTradingData` sees it.  Any non-2xx
response or network failure makes axios throw; a 2xx body without the expected
`data` array makes the `.filter` call throw.  All three land in the same
`catch` block. -/
inductive FetchOutcome where
  | ok : List Trade → FetchOutcome
  | networkError : FetchOutcome
  | httpError : ℕ → FetchOutcome
  | malformedBody : FetchOutcome
deriving DecidableEq, Repr

/-- Whether an outcome takes the `catch` branch. -/
def isFetchFailure : FetchOutcome → Bool
  | .ok _ => false
  | _ => true

/-- Server lines 42-45: the response filtered to US-equity symbols, in
response order. -/
def filterUsEquities (resp : List Trade) : List Trade :=
  resp.filter fun t => tradeSymbolIsUs t

/-- Server lines 29-51: one refresh of the in-memory `insiderData` store.  On
success the store is replaced by the filtered response; on any failure the
`catch` block only logs, leaving the store untouched. -/
def fetchInsiderTradingData (insiderData : List Trade)
    (outcome : FetchOutcome) : List Trade :=
  match outcome with
  | .ok resp => filterUsEquities resp
  | _ => insiderData

/-- Server lines 66-68: `GET /api/insider-trades` returns the store as is. -/
def getTransactions (insiderData : List Trade) : List Trade :=
  insiderData

/-- The store over a whole run: it starts empty (line 13) and each completed
refresh, scheduled or initial, transforms it in turn. -/
def runStore (outcomes : List FetchOutcome) : List Trade :=
  outcomes.foldl fetchInsiderTradingData []

/-! ### The detail view (`showModal` and the row click handler) -/

/-- The stock info object a successful Tiingo fetch produces
(app.js lines 153-158). -/
structure StockInfo where
  price : ℚ
  high : ℚ
  low : ℚ
  volume : ℚ
deriving DecidableEq, Repr

/-- The modal as app.js builds it: title, recommendation line and the six
formatted ratio values. -/
structure ModalView where
  title : String
  recommendation : String
  ratios : List JsNum
deriving DecidableEq, Repr

/-- What a row click ends in: nothing shown (price data unavailable), the
modal shown, or an uncaught script error. -/
inductive ClickOutcome where
  | nothingShown : ClickOutcome
  | shown : ModalView → ClickOutcome
  | scriptError : ClickOutcome
deriving DecidableEq, Repr

/-- app.js lines 182-227, `showModal`: the inner HTML reads
`recommendationData.details.netProfitMargin.toFixed(2)` and the five further
ratio fields.  When `details` is the empty object each field is `undefined`
and the first `.toFixed` call throws a TypeError, so the assignment at line
192 aborts and line 218 (`modal.style.display = "flex"`) never runs: the
modal is not displayed. -/
def showModal (company : String) (r : AnalysisResult) : ClickOutcome :=
  match r.details with
  | some d =>
      .shown { title := "Detailed Analysis for " ++ company
               recommendation := r.recommendation
               ratios := [d.netProfitMargin, d.returnOnAssets,
                          d.returnOnEquity, d.currentRatio, d.debtToEquity,
                          d.assetTurnover] }
  | none => .scriptError

/-- app.js lines 103-114, the row click handler: fetch price data, fetch
financials, analyze (defaulting to HOLD with empty details when financials
are unavailable) and show the modal; when price data is unavailable nothing
happens. -/
def rowClick (company : String) (stockInfo : Option StockInfo)
    (financialData : Option FinancialData) : ClickOutcome :=
  match stockInfo with
  | none => .nothingShown
  | some _ =>
      let recommendationData :=
        match financialData with
        | some fd => analyzeFinancialData fd
        | none => { recommendation := "HOLD", details := none }
      showModal company recommendationData

/-! ### The two forwarding endpoints (server file lines 75-136) -/

/-- What a forwarding call to a provider comes back with: a body, or an axios
error that may carry the provider's HTTP status (`error.response?.status`),
absent when the provider was unreachable. -/
inductive ProviderResult (α : Type) where
  | ok : α → ProviderResult α
  | failed : Option ℕ → ProviderResult α
deriving DecidableEq, Repr

/-- Server lines 75-106, `GET /api/tiingo`: 200 with the body when the series
is non-empty, 404 when it is empty, and on a provider error
`error.response?.status || 500` — the provider's status when one came back
(a falsy 0 excluded), 500 otherwise. -/
def tiingoHandlerStatus (result : ProviderResult (List StockInfo)) : ℕ :=
  match result with
  | .ok data => if data.length > 0 then 200 else 404
  | .failed st =>
      match st with
      | some s => if s = 0 then 500 else s
      | none => 500

/-- Server lines 113-136, `GET /api/polygon-financials`: 200 with the first
result when `response.data.results?.length` is truthy, 404 when the `results`
array is absent or empty, and a fixed 500 on any provider error — the
provider's status is not consulted. -/
def polygonHandlerStatus (result : ProviderResult (Option (List FinancialData))) : ℕ :=
  match result with
  | .ok results =>
      match results with
      | some (_ :: _) => 200
      | _ => 404
  | .failed _ => 500

/-! ## Theorems -/

/-- C4: `isUsEquity s` is true exactly when `s` is non-empty and consists
solely of uppercase ASCII letters A-Z; in particular "AAPL" passes while
"BRK.B", "7203" and "" fail. -/
theorem isUsEquity_iff_uppercase :
    (∀ s : String, isUsEquity s = true ↔
      (s ≠ "" ∧ ∀ c ∈ s.data, 'A' ≤ c ∧ c ≤ 'Z')) ∧
    isUsEquity "AAPL" = true ∧ isUsEquity "BRK.B" = false ∧
    isUsEquity "7203" = false ∧ isUsEquity "" = false := by
  refine ⟨fun s => ?_, by decide, by decide, by decide, by decide⟩
  simp [isUsEquity, List.all_eq_true]

/-- C5: a refresh that fails — network error, non-2xx response, or a
malformed body — leaves the store exactly as it was before the call. -/
theorem refresh_failure_keeps_snapshot (s : List Trade) (o : FetchOutcome)
    (h : isFetchFailure o = true) :
    fetchInsiderTradingData s o = s := by
  cases o with
  | ok resp => simp [isFetchFailure] at h
  | networkError => rfl
  | httpError n => rfl
  | malformedBody => rfl

/-- A concrete store entry for the C5 witness. -/
def sampleTrade : Trade :=
  { symbol := some "AAPL", name := some "Jane Doe"
    transactionCode := some "P", change := some 100
    transactionPrice := some 3, transactionDate := some "2024-01-05" }

/-- C5 witness: a network failure against a one-record store changes
nothing. -/
theorem refresh_failure_keeps_snapshot_witness :
    fetchInsiderTradingData [sampleTrade] FetchOutcome.networkError =
      [sampleTrade] :=
  refresh_failure_keeps_snapshot [sampleTrade] FetchOutcome.networkError
    (by decide)

/-- Every reachable store value is the US-equity filter of one single
provider response (the initial empty store is the filter of the empty
response). -/
theorem runStore_filter_inv (outcomes : List FetchOutcome) :
    ∃ resp : List Trade, runStore outcomes = filterUsEquities resp := by
  suffices h : ∀ (os : List FetchOutcome) (s : List Trade),
      (∃ r, s = filterUsEquities r) →
      ∃ r, os.foldl fetchInsiderTradingData s = filterUsEquities r by
    exact h outcomes [] ⟨[], rfl⟩
  intro os
  induction os with
  | nil => exact fun s h => h
  | cons o os ih =>
      intro s h
      rw [List.foldl_cons]
      apply ih
      cases o with
      | ok resp => exact ⟨resp, rfl⟩
      | networkError => exact h
      | httpError n => exact h
      | malformedBody => exact h

/-- C6: after any sequence of refresh outcomes the snapshot served by
`getTransactions` equals the US-equity filter of exactly one complete
provider response — `List.filter` keeps the response order — and every
served record's symbol passes the uppercase-only test. -/
theorem snapshot_is_one_filtered_response (outcomes : List FetchOutcome) :
    (∃ resp : List Trade,
      getTransactions (runStore outcomes) = filterUsEquities resp) ∧
    ∀ t ∈ getTransactions (runStore outcomes), tradeSymbolIsUs t = true := by
  obtain ⟨r, hr⟩ := runStore_filter_inv outcomes
  have hg : getTransactions (runStore outcomes) = filterUsEquities r := hr
  refine ⟨⟨r, hg⟩, fun t ht => ?_⟩
  rw [hg] at ht
  exact (List.mem_filter.mp ht).2

/-- The three-way case analysis of `recommend`, for arbitrary details. -/
theorem recommend_cases (d : AnalysisDetails) :
    (recommend d = "BUY" ↔
      (jsGtB d.netProfitMargin 10 = true ∧ jsGtB d.returnOnAssets 5 = true ∧
        jsGtB d.returnOnEquity 10 = true ∧
        jsGtB d.currentRatio (3 / 2) = true ∧
        jsLtB d.debtToEquity 2 = true)) ∧
    (recommend d = "SELL" ↔
      (¬(jsGtB d.netProfitMargin 10 = true ∧ jsGtB d.returnOnAssets 5 = true ∧
          jsGtB d.returnOnEquity 10 = true ∧
          jsGtB d.currentRatio (3 / 2) = true ∧
          jsLtB d.debtToEquity 2 = true) ∧
        (jsLtB d.netProfitMargin 0 = true ∨ jsLtB d.returnOnAssets 1 = true ∨
          jsLtB d.currentRatio 1 = true))) ∧
    (recommend d = "HOLD" ↔
      (¬(jsGtB d.netProfitMargin 10 = true ∧ jsGtB d.returnOnAssets 5 = true ∧
          jsGtB d.returnOnEquity 10 = true ∧
          jsGtB d.currentRatio (3 / 2) = true ∧
          jsLtB d.debtToEquity 2 = true) ∧
        ¬(jsLtB d.netProfitMargin 0 = true ∨ jsLtB d.returnOnAssets 1 = true ∨
          jsLtB d.currentRatio 1 = true))) := by
  unfold recommend
  generalize jsGtB d.netProfitMargin 10 = b1
  generalize jsGtB d.returnOnAssets 5 = b2
  generalize jsGtB d.returnOnEquity 10 = b3
  generalize jsGtB d.currentRatio (3 / 2) = b4
  generalize jsLtB d.debtToEquity 2 = b5
  generalize jsLtB d.netProfitMargin 0 = b6
  generalize jsLtB d.returnOnAssets 1 = b7
  generalize jsLtB d.currentRatio 1 = b8
  cases b1 <;> cases b2 <;> cases b3 <;> cases b4 <;> cases b5 <;>
    cases b6 <;> cases b7 <;> cases b8 <;> decide

/-- C1: with financials present the recommendation is BUY exactly when all
five BUY comparisons hold (each strict), SELL exactly when the BUY test
failed and at least one of the three SELL comparisons holds, and HOLD
otherwise; a net profit margin of exactly 10 never yields BUY. -/
theorem recommendation_decision (f : Financials) :
    ((analyzeFinancialData { financials := some f }).recommendation = "BUY" ↔
      (jsGtB (computeDetails f).netProfitMargin 10 = true ∧
        jsGtB (computeDetails f).returnOnAssets 5 = true ∧
        jsGtB (computeDetails f).returnOnEquity 10 = true ∧
        jsGtB (computeDetails f).currentRatio (3 / 2) = true ∧
        jsLtB (computeDetails f).debtToEquity 2 = true)) ∧
    ((analyzeFinancialData { financials := some f }).recommendation = "SELL" ↔
      (¬(jsGtB (computeDetails f).netProfitMargin 10 = true ∧
          jsGtB (computeDetails f).returnOnAssets 5 = true ∧
          jsGtB (computeDetails f).returnOnEquity 10 = true ∧
          jsGtB (computeDetails f).currentRatio (3 / 2) = true ∧
          jsLtB (computeDetails f).debtToEquity 2 = true) ∧
        (jsLtB (computeDetails f).netProfitMargin 0 = true ∨
          jsLtB (computeDetails f).returnOnAssets 1 = true ∨
          jsLtB (computeDetails f).currentRatio 1 = true))) ∧
    ((analyzeFinancialData { financials := some f }).recommendation = "HOLD" ↔
      (¬(jsGtB (computeDetails f).netProfitMargin 10 = true ∧
          jsGtB (computeDetails f).returnOnAssets 5 = true ∧
          jsGtB (computeDetails f).returnOnEquity 10 = true ∧
          jsGtB (computeDetails f).currentRatio (3 / 2) = true ∧
          jsLtB (computeDetails f).debtToEquity 2 = true) ∧
        ¬(jsLtB (computeDetails f).netProfitMargin 0 = true ∨
          jsLtB (computeDetails f).returnOnAssets 1 = true ∨
          jsLtB (computeDetails f).currentRatio 1 = true))) ∧
    ((computeDetails f).netProfitMargin = JsNum.fin 10 →
      (analyzeFinancialData { financials := some f }).recommendation ≠
        "BUY") := by
  obtain ⟨hB, hS, hH⟩ := recommend_cases (computeDetails f)
  refine ⟨hB, hS, hH, fun hnpm hbuy => ?_⟩
  obtain ⟨h1, -⟩ := hB.mp hbuy
  rw [hnpm] at h1
  simp only [jsGtB, decide_eq_true_eq] at h1
  exact absurd h1 (lt_irrefl 10)

/-- `x || 0` acts on a JavaScript number exactly as "coerce NaN to 0": the
only other falsy number is 0 itself, which the fallback maps to 0 again. -/
theorem jsOrZero_eq_nanToZero (x : JsNum) : jsOrZero x = nanToZero x := by
  cases x <;> rfl

/-- Coercing NaN to 0 after the `* 100` scaling equals coercing the NaN
division result to 0 before scaling, as the spec's formulas read. -/
theorem nanToZero_mul100 (x : JsNum) :
    nanToZero (jsMul100 x) = jsMul100 (nanToZero x) := by
  cases x <;> simp [jsMul100, nanToZero]

/-- C2: with financials present, the computed details are exactly the six
formulas of the spec over the extracted figures — each quotient taken in
JavaScript semantics, a NaN result coerced to 0; in particular revenue 0
together with net income 0 yields a net profit margin of exactly 0, not
NaN. -/
theorem details_follow_spec_formulas (f : Financials) :
    ((analyzeFinancialData { financials := some f }).details =
      some (specDetails (fieldOr0 f.revenues) (fieldOr0 f.netIncome)
        (fieldOr0 f.totalAssets) (fieldOr0 f.currentAssets)
        (fieldOr1 f.currentLiabilities) (fieldOr0 f.liabilities)
        (fieldOr1 f.equity))) ∧
    (fieldOr0 f.revenues = 0 → fieldOr0 f.netIncome = 0 →
      (computeDetails f).netProfitMargin = JsNum.fin 0) := by
  constructor
  · show some (computeDetails f) = _
    simp [computeDetails, specDetails, specPercent, specRatio,
      jsOrZero_eq_nanToZero, nanToZero_mul100]
  · intro hr hn
    simp [computeDetails, hr, hn, jsDiv, jsMul100, jsOrZero]

/-- C10: a denominator that is present but 0 is falsy, so the `|| 1`
fallback replaces it by 1: with equity reported as 0 the return on equity is
netIncome × 100 and the debt-to-equity ratio is totalLiabilities; with
current liabilities reported as 0 the current ratio is currentAssets. -/
theorem zero_denominator_becomes_one (f : Financials) :
    ∃ d, (analyzeFinancialData { financials := some f }).details = some d ∧
      (f.equity = some 0 →
        d.returnOnEquity = JsNum.fin (fieldOr0 f.netIncome * 100) ∧
        d.debtToEquity = JsNum.fin (fieldOr0 f.liabilities)) ∧
      (f.currentLiabilities = some 0 →
        d.currentRatio = JsNum.fin (fieldOr0 f.currentAssets)) := by
  refine ⟨computeDetails f, rfl, fun he => ?_, fun hc => ?_⟩
  · constructor <;>
      norm_num [computeDetails, he, fieldOr1, jsDiv, jsMul100, jsOrZero]
  · norm_num [computeDetails, hc, fieldOr1, jsDiv, jsOrZero]

/-- A sale of 5 shares at price 10, for the C3 counterexample: the claimed
absolute-value formula would display 50. -/
def saleTrade : Trade :=
  { symbol := some "XYZ", name := some "Jane Doe"
    transactionCode := some "S", change := some (-5)
    transactionPrice := some 10, transactionDate := some "2024-01-03" }

/-- C3 counterexample: the code multiplies the signed share delta, so price
10 with shares -5 gives a trade value of -50, not 10 × |-5| = 50. -/
theorem tradeValue_signed_cex :
    tradeValue saleTrade = -50 ∧ tradeValue saleTrade ≠ 10 * 5 := by
  constructor <;> norm_num [tradeValue, saleTrade, rowPrice, rowShares]

/-- C3 amended: the displayed trade value is price × share delta taken with
its sign (price 10 and shares -5 give -50); with a null price the trade value
is 0 and the cell shows "N/A". -/
theorem tradeValue_signed_product (t : Trade) :
    (∀ p, rowPrice t = some p → rowShares t ≠ 0 →
      tradeValue t = p * rowShares t ∧
      (tradeValue t ≠ 0 →
        tradeValueCell t = Cell.currency (p * rowShares t))) ∧
    (rowPrice t = none →
      tradeValue t = 0 ∧ tradeValueCell t = Cell.text "N/A") := by
  constructor
  · intro p hp hs
    have hv : tradeValue t = p * rowShares t := by
      simp [tradeValue, hp, hs]
    refine ⟨hv, fun hnz => ?_⟩
    unfold tradeValueCell
    rw [if_neg hnz, hv]
  · intro hp
    have hv : tradeValue t = 0 := by simp [tradeValue, hp]
    refine ⟨hv, ?_⟩
    unfold tradeValueCell
    rw [if_pos hv]

/-- A purchase with no transaction price, for the C9 counterexample. -/
def nullPricePurchase : Trade :=
  { symbol := some "DEF", name := some "John Roe"
    transactionCode := some "P", change := some 100
    transactionPrice := none, transactionDate := some "2024-01-04" }

/-- C9 counterexample: a purchase row with a null price gets the emphasized
bold-green class — JavaScript's `null <= 2` is true — not the standard green
class the claim assigns to every purchase row whose price is not ≤ 2. -/
theorem rowClass_null_price_cex :
    rowClass nullPricePurchase = some "highlight-green-bold" ∧
    rowClass nullPricePurchase ≠ some "highlight-green" := by
  constructor <;> decide

/-- The spec's end-to-end scenario row: a purchase of symbol "ABC" at price
1.5. -/
def smallPurchase : Trade :=
  { symbol := some "ABC", name := some "Jane Doe"
    transactionCode := some "P", change := some 100
    transactionPrice := some (3 / 2), transactionDate := some "2024-01-02" }

/-- C9 amended: purchase rows with a present price ≤ 2 and purchase rows
with a null price (null compares as 0) get the bold green class; purchase
rows with a price above 2 get the plain green class; non-purchase rows get
no class.  A purchase at price 1.5 is emphasized. -/
theorem rowClass_rules (t : Trade) :
    (transactionType t = "P" →
      (∀ p, rowPrice t = some p → p ≤ 2 →
        rowClass t = some "highlight-green-bold") ∧
      (∀ p, rowPrice t = some p → 2 < p →
        rowClass t = some "highlight-green") ∧
      (rowPrice t = none → rowClass t = some "highlight-green-bold")) ∧
    (transactionType t ≠ "P" → rowClass t = none) ∧
    rowClass smallPurchase = some "highlight-green-bold" := by
  refine ⟨fun hP => ⟨fun p hp hle => ?_, fun p hp hgt => ?_, fun hn => ?_⟩,
    fun hnP => ?_, ?_⟩
  · simp [rowClass, hP, jsLeNullable, hp, hle]
  · have hb : decide (p ≤ 2) = false := decide_eq_false (not_le.mpr hgt)
    simp [rowClass, hP, jsLeNullable, hp, hb]
  · simp [rowClass, hP, jsLeNullable, hn]
  · simp [rowClass, hnP]
  · have ht : transactionType smallPurchase = "P" := by decide
    have hp : rowPrice smallPurchase = some (3 / 2) := by
      norm_num [rowPrice, smallPurchase]
    have hle : ((3 : ℚ) / 2 ≤ 2) := by norm_num
    simp [rowClass, ht, jsLeNullable, hp, hle]

/-- A concrete successful price lookup for the C7 failing input. -/
def samplePrice : StockInfo :=
  { price := 5, high := 6, low := 4, volume := 200000 }

/-- C7: with price data present but financials unavailable, the defaulted
result {recommendation HOLD, empty details} makes `showModal` throw on the
first `.toFixed` call, so the click ends in an uncaught script error and the
detail view never opens. -/
theorem rowClick_empty_details_crashes :
    rowClick "ABC" (some samplePrice) none = ClickOutcome.scriptError ∧
    ∀ v : ModalView,
      rowClick "ABC" (some samplePrice) none ≠ ClickOutcome.shown v := by
  refine ⟨rfl, fun v h => ?_⟩
  have h0 : rowClick "ABC" (some samplePrice) none =
      ClickOutcome.scriptError := rfl
  rw [h0] at h
  exact ClickOutcome.noConfusion h

/-- C8 counterexample: the polygon-financials proxy answers 500 even when
the provider responded with status 403 — that status is not propagated. -/
theorem polygon_status_not_propagated_cex :
    polygonHandlerStatus (ProviderResult.failed (some 403)) = 500 ∧
    polygonHandlerStatus (ProviderResult.failed (some 403)) ≠ 403 := by
  exact ⟨rfl, by decide⟩

/-- C8 amended: the tiingo proxy forwards the provider's error status
verbatim and answers 500 only when the provider was unreachable and no
status exists, while the polygon-financials proxy answers a fixed 500 on any
provider error, whatever status the provider returned. -/
theorem proxy_error_statuses (s : ℕ) (hs : s ≠ 0) :
    tiingoHandlerStatus (ProviderResult.failed (some s)) = s ∧
    tiingoHandlerStatus (ProviderResult.failed none) = 500 ∧
    ∀ st : Option ℕ, polygonHandlerStatus (ProviderResult.failed st) = 500 := by
  refine ⟨?_, rfl, fun st => rfl⟩
  simp [tiingoHandlerStatus, hs]

/-- C8 witness: a provider status of 404 is forwarded as 404 by the tiingo
proxy while the polygon proxy stays at 500. -/
theorem proxy_error_statuses_witness :
    tiingoHandlerStatus (ProviderResult.failed (some 404)) = 404 ∧
    tiingoHandlerStatus (ProviderResult.failed none) = 500 ∧
    ∀ st : Option ℕ, polygonHandlerStatus (ProviderResult.failed st) = 500 :=
  proxy_error_statuses 404 (by decide)

end InsiderTracker
